import Mathlib

/- Shallow embedding of the ZEO asyncio client (src/ZEO/asyncio/client.py).

   The Python code runs on a single I/O thread; each method of Protocol,
   Client and ClientRunner is therefore modelled as a pure function from its
   state and its inputs (including the replies that the real code obtains by
   yielding on futures inside a future_generator) to the successor state
   together with the list of observable effects, in the order the code
   performs them.  External collaborators (the persistent cache, the
   embedding application, the wire transport, the event loop) are represented
   by effect events; the cache additionally keeps the two observable pieces
   of state the code branches on: whether it is non-empty and its last tid. -/

namespace ZEOClient

/-- Object ids are opaque tokens; modelled as naturals. -/
abbrev Oid := Nat

/-- Transaction ids are opaque and totally ordered; modelled as naturals.
A missing tid (Python None or an empty byte string, both falsy) is `none`. -/
abbrev Tid := Nat

/-- Opaque object payload. -/
abbrev Data := Nat

/-- Opaque server info mapping. -/
abbrev Info := Nat

/-- Python byte strings, used for protocol version tags. -/
abbrev Bytes := List Nat

/-- Python exception classes are opaque; the code only tests whether the
class is a key-not-found (POSKeyError) or conflict (ConflictError) kind. -/
structure ExcClass where
  name : String
  isPOSKeyError : Bool
  isConflictError : Bool
deriving DecidableEq, Repr

/-- Decoded Python values travelling in frames. -/
inductive PyVal where
  | num (n : Nat)
  | str (s : String)
  | bool (b : Bool)
  | bytes (b : Bytes)
  | tuple (elems : List PyVal)
  | excClass (c : ExcClass)
  | pyNone

/-- Message ids: a positive integer for ordinary calls, or the structural
pair key used by the coalesced loadBefore path. -/
inductive MsgKey where
  | num (n : Nat)
  | pair (oid : Oid) (tid : Tid)
deriving DecidableEq, Repr

/-- Exception values raised or stored into futures by this code. -/
inductive ExcVal where
  | clientDisconnected (msg : String)
  | protocolError (v : Bytes)
  | assertionError
  | timeoutError
  | wire (v : PyVal)

/-- The read_only preference: True, False, or the Fallback sentinel. -/
inductive ReadOnlyPref where
  | rw
  | ro
  | fallback
deriving DecidableEq, Repr

/-- Python truthiness of the read_only value (Fallback is a plain object,
hence truthy). -/
def ReadOnlyPref.truthy : ReadOnlyPref → Bool
  | .rw => false
  | .ro => true
  | .fallback => true

/-- What the Client knows about one candidate Protocol. -/
structure ProtRec where
  pid : Nat
  readOnly : ReadOnlyPref
  closed : Bool
deriving DecidableEq, Repr

/-- The argument of Client.register_failed: normally a Protocol, but the
get_info failure path passes the Client itself. -/
inductive RFArg where
  | proto (p : ProtRec)
  | selfClient
deriving DecidableEq, Repr

/-- Observable effects, in program order. -/
inductive Event where
  | cacheClear
  | cacheInvalidate (oid : Oid) (tid : Option Tid)
  | cacheStore (oid : Oid) (start : Tid) (stop : Option Tid) (data : Data)
  | cacheSetLastTid (tid : Tid)
  | invalidateCacheCall
  | invalidateTransactionCall (tid : Tid) (oids : List Oid)
  | notifyConnected (info : Info)
  | notifyDisconnected
  | staleCacheEvent
  | logError
  | logCritical
  | writeBytes (b : Bytes)
  | writeFrame (msgid : MsgKey) (isAsync : Bool) (method : String) (args : List PyVal)
  | heartbeatCancel
  | connectingCancel
  | transportClose
  | futPop (key : MsgKey)
  | futSetResult (fid : Nat) (v : PyVal)
  | futSetException (fid : Nat) (e : ExcVal)
  | futCancel (fid : Nat)
  | keyError (key : MsgKey)
  | attributeError (name : String)
  | assertFailure
  | clientDispatch (name : String)
  | protocolClose (pid : Nat)
  | disconnectedCall (pid : Nat)
  | registerFailedCall (arg : RFArg) (e : ExcVal)
  | scheduleRetry
  | newConnectedFuture
  | connectedSetResult
  | verifyCall (serverTid : Option Tid)
  | rpcCall (method : String) (args : List PyVal)
  | onCommit (tid : Tid)
  | tryConnecting
  | spawnProtocol (addr : Nat)
  | callSoonThreadsafe

/-- Association-list lookup for the futures table (a Python dict). -/
def lookupFut : List (MsgKey × Nat) → MsgKey → Option Nat
  | [], _ => none
  | (k, f) :: rest, key => if k = key then some f else lookupFut rest key

/-- Removal of a key from the futures table (dict.pop). -/
def eraseFut : List (MsgKey × Nat) → MsgKey → List (MsgKey × Nat)
  | [], _ => []
  | (k, f) :: rest, key => if k = key then rest else (k, f) :: eraseFut rest key

/-- Lexicographic strict order on byte strings, as Python compares bytes. -/
def bytesLt : Bytes → Bytes → Bool
  | [], [] => false
  | [], _ :: _ => true
  | _ :: _, [] => false
  | a :: as, b :: bs => decide (a < b) || (a == b && bytesLt as bs)

/-- Python min of two byte strings: the second argument replaces the first
only when it is strictly smaller. -/
def bytesMin (a b : Bytes) : Bytes := if bytesLt b a then b else a

/-- The version tag b Z309. -/
def z309 : Bytes := [90, 51, 48, 57]

/-- The version tag b Z310. -/
def z310 : Bytes := [90, 51, 49, 48]

/-- The version tag b Z3101. -/
def z3101 : Bytes := [90, 51, 49, 48, 49]

/-- The version tag b Z4. -/
def z4 : Bytes := [90, 52]

/-- The version tag b Z5. -/
def z5 : Bytes := [90, 53]

/-- Protocol.protocols: the supported version tags in ascending order. -/
def Protocol.protocols : List Bytes := [z309, z310, z3101, z4, z5]

/-- State of one Protocol instance. -/
structure ProtocolState where
  pid : Nat
  storage_key : String
  read_only : ReadOnlyPref
  closed : Bool
  transportOpen : Bool
  heartbeatActive : Bool
  futures : List (MsgKey × Nat)
  nextFut : Nat
  message_id : Nat
  protocol_version : Option Bytes
deriving DecidableEq, Repr

/-- The ProtRec view of a ProtocolState (what the Client sees of it). -/
def protRecOf (ps : ProtocolState) : ProtRec :=
  { pid := ps.pid, readOnly := ps.read_only, closed := ps.closed }

/-- Protocol.close: idempotent; cancels the connect attempt, closes the
transport and fails every pending future with ClientDisconnected Closed. -/
def Protocol.close (ps : ProtocolState) : ProtocolState × List Event :=
  if ps.closed then (ps, [])
  else
    ({ ps with closed := true, futures := [] },
     Event.connectingCancel ::
       (if ps.transportOpen then [Event.transportClose] else []) ++
       ps.futures.map (fun kv => Event.futSetException kv.2 (ExcVal.clientDisconnected ("Closed"))))

/-- Protocol.connection_lost: cancel the heartbeat; when closed deliberately,
cancel all pending futures; otherwise fail them with Disconnected, mark the
Protocol closed and notify the Client. -/
def Protocol.connection_lost (ps : ProtocolState) (exc : Option String) :
    ProtocolState × List Event :=
  if ps.closed then
    ({ ps with heartbeatActive := false, futures := [] },
     Event.heartbeatCancel :: ps.futures.map (fun kv => Event.futCancel kv.2))
  else
    ({ ps with heartbeatActive := false, futures := [], closed := true },
     Event.heartbeatCancel ::
       ps.futures.map (fun kv =>
         Event.futSetException kv.2 (ExcVal.clientDisconnected (exc.getD ("connection lost")))) ++
       [Event.disconnectedCall ps.pid])

/-- Protocol.call: allocate the next message id, record the future in the
pending table and write the frame. -/
def Protocol.call (ps : ProtocolState) (fid : Nat) (method : String) (args : List PyVal) :
    ProtocolState × Nat × List Event :=
  let mid := ps.message_id + 1
  ({ ps with message_id := mid, futures := ps.futures ++ [(MsgKey.num mid, fid)] },
   fid,
   [Event.writeFrame (MsgKey.num mid) false method args])

/-- Protocol.fut: Protocol.call on a freshly allocated Fut. -/
def Protocol.fut (ps : ProtocolState) (method : String) (args : List PyVal) :
    ProtocolState × Nat × List Event :=
  let fid := ps.nextFut
  Protocol.call { ps with nextFut := fid + 1 } fid method args

/-- Protocol.load_before: the special-cased loadBefore with the structural
key (oid, tid); an existing entry is returned as is, without a new frame. -/
def Protocol.load_before (ps : ProtocolState) (oid : Oid) (tid : Tid) :
    ProtocolState × Nat × List Event :=
  let message_id := MsgKey.pair oid tid
  match lookupFut ps.futures message_id with
  | some future => (ps, future, [])
  | none =>
      let future := ps.nextFut
      ({ ps with nextFut := future + 1, futures := ps.futures ++ [(message_id, future)] },
       future,
       [Event.writeFrame message_id false ("loadBefore") [PyVal.num oid, PyVal.num tid]])

/-- The reply-shape test of message_received: a tuple of length at least two
whose first element is an exception class. -/
def excOfReply : PyVal → Option (ExcClass × PyVal)
  | PyVal.tuple (PyVal.excClass c :: payload :: _) => some (c, payload)
  | _ => none

/-- Protocol.client_methods: the calls the server may make on the client. -/
def Protocol.client_methods : List String :=
  [("invalidateTransaction"), ("serialnos"), ("info"),
   ("receiveBlobStart"), ("receiveBlobChunk"), ("receiveBlobStop")]

/-- Protocol.message_received for one decoded frame. -/
def Protocol.message_received (ps : ProtocolState) (msgid : MsgKey) (isAsync : Bool)
    (name : String) (args : PyVal) : ProtocolState × List Event :=
  if name = (".reply") then
    match lookupFut ps.futures msgid with
    | none => (ps, [Event.keyError msgid])
    | some future =>
        let ps1 := { ps with futures := eraseFut ps.futures msgid }
        match excOfReply args with
        | some cp =>
            (ps1,
             Event.futPop msgid ::
               (if cp.1.isPOSKeyError || cp.1.isConflictError then [] else [Event.logError]) ++
               [Event.futSetException future (ExcVal.wire cp.2)])
        | none => (ps1, [Event.futPop msgid, Event.futSetResult future args])
  else
    if isAsync then
      if name ∈ Protocol.client_methods then (ps, [Event.clientDispatch name])
      else (ps, [Event.attributeError name])
    else (ps, [Event.assertFailure])

/-- Models finish_connect from receipt of the server version tag through
issuing the initial register call.  The remainder of the generator (the
register reply and the read-only fallback retry) resumes only when that
reply arrives and is driven by Client.registered or register_failed. -/
def Protocol.finish_connect (ps : ProtocolState) (protocol_version : Bytes) :
    ProtocolState × List Event :=
  let v := bytesMin protocol_version z5
  let ps1 := { ps with protocol_version := some v }
  if v ∈ Protocol.protocols then
    let regArgs := [PyVal.str ps.storage_key,
                    PyVal.bool (match ps.read_only with
                                | ReadOnlyPref.ro => true
                                | ReadOnlyPref.rw => false
                                | ReadOnlyPref.fallback => false)]
    let r := Protocol.fut ps1 ("register") regArgs
    (r.1, Event.writeBytes v :: r.2.2)
  else
    (ps1, [Event.registerFailedCall (RFArg.proto (protRecOf ps1))
             (ExcVal.protocolError protocol_version)])

/-- The observable cache state: whether it holds any entries, and the last
tid recorded by setLastTid / read by getLastTid. -/
structure CacheState where
  nonempty : Bool
  lastTid : Option Tid
deriving DecidableEq, Repr

/-- State of the Client. -/
structure ClientState where
  addrs : List Nat
  readOnly : ReadOnlyPref
  ready : Option Bool
  protocol : Option ProtRec
  protocols : List ProtRec
  cache : CacheState
  closed : Bool
  connectedGen : Nat
  connectedResolved : Bool
  verify_result : Option String
deriving DecidableEq, Repr

/-- Client._clear_protocols: close every candidate other than the kept one
and drop the candidate list. -/
def Client.clear_protocols (st : ClientState) (keep : Option Nat) :
    ClientState × List Event :=
  ({ st with protocols := [] },
   (st.protocols.filter (fun p => decide (some p.pid ≠ keep) && !p.closed)).map
     (fun p => Event.protocolClose p.pid))

/-- Client.try_connecting: when not closed, spawn one Protocol per address. -/
def Client.try_connecting (st : ClientState) : ClientState × List Event :=
  if st.closed then (st, [Event.tryConnecting])
  else
    ({ st with protocols :=
         st.addrs.map (fun a => { pid := a, readOnly := st.readOnly, closed := false }) },
     Event.tryConnecting :: st.addrs.map Event.spawnProtocol)

/-- Client.disconnected: when the lost protocol is the current one (or None
was passed), notify the embedder, drop readiness, allocate a fresh readiness
future, forget the current protocol and close the candidates; in any case
reconnect once every candidate is closed. -/
def Client.disconnected (st : ClientState) (proto : Option Nat) :
    ClientState × List Event :=
  let isCurrent := proto = st.protocol.map ProtRec.pid
  let step1 :=
    if proto = none ∨ isCurrent then
      let evs1 := if isCurrent ∧ proto ≠ none then [Event.notifyDisconnected] else []
      let st1 := { st with
        ready := if st.ready = some true then some false else st.ready,
        connectedGen := st.connectedGen + 1,
        connectedResolved := false,
        protocol := none }
      let r := Client.clear_protocols st1 none
      (r.1, evs1 ++ [Event.newConnectedFuture] ++ r.2)
    else (st, [])
  if step1.1.protocols.all ProtRec.closed then
    let r := Client.try_connecting step1.1
    (r.1, step1.2 ++ r.2)
  else step1

/-- Client.upgrade: drop readiness, allocate a fresh readiness future, close
the old current protocol, promote the new one and close the other
candidates. -/
def Client.upgrade (st : ClientState) (protocol : ProtRec) : ClientState × List Event :=
  let closeEvs := match st.protocol with
    | some q => if q.closed then [] else [Event.protocolClose q.pid]
    | none => []
  let st1 := { st with
    ready := some false
    connectedGen := st.connectedGen + 1
    connectedResolved := false
    protocol := some protocol }
  let r := Client.clear_protocols st1 (some protocol.pid)
  (r.1, Event.newConnectedFuture :: closeEvs ++ r.2)

/-- Client.registered: adopt the first registering protocol, upgrade to a
writable one under the Fallback preference, otherwise refuse it. -/
def Client.registered (st : ClientState) (protocol : ProtRec) (server_tid : Option Tid) :
    ClientState × List Event :=
  if st.protocol = none then
    let st1 := { st with protocol := some protocol }
    let r :=
      if st.readOnly = ReadOnlyPref.fallback ∧ protocol.readOnly.truthy = true then (st1, [])
      else Client.clear_protocols st1 (some protocol.pid)
    (r.1, r.2 ++ [Event.verifyCall server_tid])
  else if st.readOnly = ReadOnlyPref.fallback ∧ protocol.readOnly.truthy = false ∧
          st.protocol.map (fun q => q.readOnly.truthy) = some true then
    let r := Client.upgrade st protocol
    (r.1, r.2 ++ [Event.verifyCall server_tid])
  else
    (st, if protocol.closed then [] else [Event.protocolClose protocol.pid])

/-- Client.register_failed: close the failed protocol (unless the argument
is the Client itself), and schedule a fresh connect round when no current
protocol exists and every candidate is closed. -/
def Client.register_failed (st : ClientState) (arg : RFArg) (exc : ExcVal) :
    ClientState × List Event :=
  let step1 :=
    match arg with
    | RFArg.proto p =>
        let ps2 := st.protocols.map
          (fun (q : ProtRec) => if q.pid = p.pid then { q with closed := true } else q)
        ({ st with protocols := ps2 },
         if p.closed then [] else [Event.protocolClose p.pid])
    | RFArg.selfClient => (st, [])
  let evs3 :=
    if step1.1.protocol = none ∧ step1.1.protocols.any (fun p => !p.closed) = false
    then [Event.scheduleRetry] else []
  (step1.1, step1.2 ++ [Event.registerFailedCall arg exc] ++ [Event.logError] ++ evs3)

/-- The replies the verify generator may consume. -/
structure VerifyReplies where
  lastTransaction : Tid
  invalidations : Option (Tid × List Oid)
  info : Except ExcVal Info

/-- Client.verify with the current protocol made explicit (the generator
captures it in a local before anything else). -/
def Client.verifyCore (st : ClientState) (p : ProtRec) (server_tid0 : Option Tid)
    (r : VerifyReplies) : ClientState × List Event :=
  let sr : Tid × List Event :=
    match server_tid0 with
    | some t => (t, [])
    | none => (r.lastTransaction, [Event.rpcCall ("lastTransaction") []])
  let server_tid := sr.1
  let tryResult : Option (ClientState × List Event × Tid) :=
    if st.cache.nonempty then
      match st.cache.lastTid with
      | none =>
          some ({ st with
                    verify_result := some ("Non-empty cache w/o tid")
                    cache := { st.cache with nonempty := false } },
                [Event.logError, Event.cacheClear, Event.invalidateCacheCall], server_tid)
      | some cache_tid =>
          if server_tid < cache_tid then none
          else if cache_tid = server_tid then
            some ({ st with verify_result := some ("Cache up to date") }, [], server_tid)
          else
            match r.invalidations with
            | some vdata =>
                some ({ st with verify_result := some ("quick verification") },
                      Event.rpcCall ("getInvalidations") [PyVal.num cache_tid] ::
                        vdata.2.map (fun oid => Event.cacheInvalidate oid none) ++
                        [Event.invalidateTransactionCall vdata.1 vdata.2],
                      vdata.1)
            | none =>
                some ({ st with
                          verify_result := some ("cache too old, clearing")
                          cache := { st.cache with nonempty := false } },
                      [Event.rpcCall ("getInvalidations") [PyVal.num cache_tid], Event.staleCacheEvent,
                       Event.logCritical, Event.cacheClear, Event.invalidateCacheCall],
                      server_tid)
    else
      some ({ st with verify_result := some ("empty cache") }, [], server_tid)
  match tryResult with
  | none =>
      let st1 := { st with verify_result := some ("Cache newer than server"), protocol := none }
      let r2 := Client.register_failed st1 (RFArg.proto p) ExcVal.assertionError
      (r2.1, sr.2 ++ [Event.logCritical] ++ r2.2)
  | some out =>
      let st2 := { out.1 with
        cache := { out.1.cache with lastTid := some out.2.2 }
        ready := some true }
      let evsA := sr.2 ++ out.2.1 ++ [Event.cacheSetLastTid out.2.2, Event.rpcCall ("get_info") []]
      match r.info with
      | Except.error exc =>
          let r3 := Client.register_failed st2 RFArg.selfClient exc
          (r3.1, evsA ++ r3.2)
      | Except.ok info =>
          ({ st2 with connectedResolved := true },
           evsA ++ [Event.notifyConnected info, Event.connectedSetResult])

/-- Client.verify entry point. -/
def Client.verify (st : ClientState) (server_tid0 : Option Tid) (r : VerifyReplies) :
    ClientState × List Event :=
  match st.protocol with
  | some p => Client.verifyCore st p server_tid0 r
  | none => (st, [])

/-- Client.invalidateTransaction: the server-initiated invalidation handler. -/
def Client.invalidateTransaction (st : ClientState) (tid : Tid) (oids : List Oid) :
    ClientState × List Event :=
  if st.ready = some true then
    ({ st with cache := { st.cache with lastTid := some tid } },
     oids.map (fun oid => Event.cacheInvalidate oid (some tid)) ++
       [Event.invalidateTransactionCall tid oids, Event.cacheSetLastTid tid])
  else (st, [])

/-- Client.tpc_finish_threadsafe; the wire argument is the outcome of the
tpc_finish round trip on the protocol. -/
def Client.tpc_finish_threadsafe (st : ClientState) (fid : Nat) (tid : Tid)
    (updates : List (Oid × Option Data × Bool)) (wire : Except ExcVal Tid) :
    ClientState × List Event :=
  if st.ready = some true then
    match wire with
    | Except.ok tid1 =>
        let updEvs := updates.flatMap (fun u =>
          Event.cacheInvalidate u.1 (some tid1) ::
            (match u.2.1 with
             | some d => if u.2.2 then [] else [Event.cacheStore u.1 tid1 none d]
             | none => []))
        ({ st with cache := { st.cache with lastTid := some tid1 } },
         Event.rpcCall ("tpc_finish") [PyVal.num tid] :: updEvs ++
           [Event.cacheSetLastTid tid1, Event.onCommit tid1,
            Event.futSetResult fid (PyVal.num tid1)])
    | Except.error exc =>
        let closeEvs := match st.protocol with
          | some q => if q.closed then [] else [Event.protocolClose q.pid]
          | none => []
        let marked := st.protocols.map (fun q =>
          if some q.pid = st.protocol.map ProtRec.pid then { q with closed := true } else q)
        let stc := { st with protocols := marked }
        let r := Client.disconnected stc (st.protocol.map ProtRec.pid)
        (r.1, Event.rpcCall ("tpc_finish") [PyVal.num tid] :: Event.futSetException fid exc :: closeEvs ++ r.2)
  else
    (st, [Event.futSetException fid (ExcVal.clientDisconnected (""))])

/-- Outcome of blocking on a cross-thread future with a deadline. -/
inductive WaitRes where
  | ok (v : PyVal)
  | err (e : ExcVal)
  | timedOut

/-- ClientRunner.wait_for_result: a timeout turns into ClientDisconnected
while the client is not ready, and propagates otherwise. -/
def ClientRunner.wait_for_result (ready : Option Bool) (res : WaitRes) :
    Except ExcVal PyVal :=
  match res with
  | WaitRes.ok v => Except.ok v
  | WaitRes.err e => Except.error e
  | WaitRes.timedOut =>
      if ready = some true then Except.error ExcVal.timeoutError
      else Except.error (ExcVal.clientDisconnected ("timed out waiting for connection"))

/-- The Runner state: whether close() has replaced the call hop with the
short-circuit that raises ClientDisconnected closed. -/
structure RunnerState where
  callClosed : Bool
deriving DecidableEq, Repr

/-- One synchronous call through the Runner: after close it raises without
touching the I/O thread; otherwise it hops onto the loop and blocks. -/
def ClientRunner.call (rs : RunnerState) (ready : Option Bool) (res : WaitRes) :
    Except ExcVal PyVal × List Event :=
  if rs.callClosed then (Except.error (ExcVal.clientDisconnected ("closed")), [])
  else (ClientRunner.wait_for_result ready res, [Event.callSoonThreadsafe])

/-- ClientRunner.close: run close_threadsafe through the call hop, then
short-circuit every later call. -/
def ClientRunner.close (rs : RunnerState) : RunnerState × List Event :=
  ({ callClosed := true },
   if rs.callClosed then [] else [Event.callSoonThreadsafe])

/-- Repeated identical load_before calls against one Protocol, threading the
state, collecting the returned futures and the frames written. -/
def load_before_repeat (ps : ProtocolState) (oid : Oid) (tid : Tid) :
    Nat → ProtocolState × List Nat × List Event
  | 0 => (ps, [], [])
  | n + 1 =>
      let r1 := Protocol.load_before ps oid tid
      let r2 := load_before_repeat r1.1 oid tid n
      (r2.1, r1.2.1 :: r2.2.1, r1.2.2 ++ r2.2.2)

/-- A key that is absent from the table is still found after appending it. -/
theorem lookupFut_append_self : ∀ (l : List (MsgKey × Nat)) (k : MsgKey) (f : Nat),
    lookupFut l k = none → lookupFut (l ++ [(k, f)]) k = some f
  | [], k, f, _ => by simp [lookupFut]
  | (k1, f1) :: rest, k, f, h => by
      by_cases hk : k1 = k
      · simp [lookupFut, hk] at h
      · simp only [lookupFut, hk, if_false, List.cons_append, if_neg hk] at h ⊢
        exact lookupFut_append_self rest k f h

/-- A key absent from the key list is not found. -/
theorem lookupFut_eq_none : ∀ (l : List (MsgKey × Nat)) (k : MsgKey),
    k ∉ l.map Prod.fst → lookupFut l k = none
  | [], _, _ => by simp [lookupFut]
  | (k1, f1) :: rest, k, h => by
      simp only [List.map_cons, List.mem_cons] at h
      push_neg at h
      have hne : ¬ k1 = k := fun hk => h.1 hk.symm
      simp only [lookupFut, if_neg hne]
      exact lookupFut_eq_none rest k h.2

/-- With duplicate-free keys, popping a key removes it from the table. -/
theorem lookupFut_eraseFut_self : ∀ (l : List (MsgKey × Nat)) (k : MsgKey),
    (l.map Prod.fst).Nodup → lookupFut (eraseFut l k) k = none
  | [], k, _ => by simp [eraseFut, lookupFut]
  | (k1, f1) :: rest, k, h => by
      simp only [List.map_cons, List.nodup_cons] at h
      by_cases hk : k1 = k
      · subst hk
        simpa [eraseFut] using lookupFut_eq_none rest k1 h.1
      · simp only [eraseFut, if_neg hk, lookupFut]
        exact lookupFut_eraseFut_self rest k h.2

/-- A sample Ready client state for the concrete witnesses. -/
def sampleReady : ClientState :=
  { addrs := [10], readOnly := ReadOnlyPref.rw, ready := some true,
    protocol := some { pid := 1, readOnly := ReadOnlyPref.rw, closed := false },
    protocols := [], cache := { nonempty := true, lastTid := some 5 }, closed := false,
    connectedGen := 0, connectedResolved := false, verify_result := none }

/-- A sample Protocol state with an empty pending table. -/
def sampleProto : ProtocolState :=
  { pid := 1, storage_key := "1", read_only := ReadOnlyPref.rw, closed := false,
    transportOpen := true, heartbeatActive := true, futures := [], nextFut := 0,
    message_id := 0, protocol_version := none }

/-- C2: when the Client is Ready, invalidateTransaction(tid, oids) invalidates
every oid in the cache, forwards the invalidation to the embedder, and only
afterwards sets cache.last_tid to tid, so the resulting cache.last_tid equals
tid; when the Client is not Ready (in particular during verification) the
handler is a no-op that touches neither the cache nor the embedder. -/
theorem C2_invalidateTransaction_spec (st : ClientState) (tid : Tid) (oids : List Oid) :
    (st.ready = some true →
      (Client.invalidateTransaction st tid oids).2 =
        oids.map (fun oid => Event.cacheInvalidate oid (some tid)) ++
          [Event.invalidateTransactionCall tid oids, Event.cacheSetLastTid tid] ∧
      (Client.invalidateTransaction st tid oids).1.cache.lastTid = some tid) ∧
    (st.ready ≠ some true →
      Client.invalidateTransaction st tid oids = (st, [])) := by
  constructor
  · intro h
    simp [Client.invalidateTransaction, h]
  · intro h
    simp [Client.invalidateTransaction, h]

/-- Witness for C2 at a concrete Ready state. -/
theorem C2_invalidateTransaction_witness :
    (Client.invalidateTransaction sampleReady 7 [2, 3]).1.cache.lastTid = some 7 :=
  ((C2_invalidateTransaction_spec sampleReady 7 [2, 3]).1 rfl).2

/-- An in-flight load_before key makes load_before return the stored future
with no effects. -/
theorem load_before_inflight (ps : ProtocolState) (oid : Oid) (tid : Tid) (f : Nat)
    (h : lookupFut ps.futures (MsgKey.pair oid tid) = some f) :
    Protocol.load_before ps oid tid = (ps, f, []) := by
  simp [Protocol.load_before, h]

/-- Iterating load_before on an in-flight key returns the same future every
time and writes nothing. -/
theorem load_before_repeat_inflight (ps : ProtocolState) (oid : Oid) (tid : Tid) (f : Nat)
    (h : lookupFut ps.futures (MsgKey.pair oid tid) = some f) :
    ∀ n, load_before_repeat ps oid tid n = (ps, List.replicate n f, []) := by
  intro n
  induction n with
  | zero => simp [load_before_repeat]
  | succ n ih =>
      simp [load_before_repeat, load_before_inflight ps oid tid f h, ih,
        List.replicate_succ]

/-- C3: a load_before call whose key (oid, tid) is already pending returns the
existing completion and writes no frame, hence any number of load_before calls
issued while the first is in flight all share the first call's completion and
exactly one frame is written in total. -/
theorem C3_load_before_coalesces (ps : ProtocolState) (oid : Oid) (tid : Tid) :
    (∀ f, lookupFut ps.futures (MsgKey.pair oid tid) = some f →
       Protocol.load_before ps oid tid = (ps, f, []) ∧
       ∀ n, load_before_repeat ps oid tid n = (ps, List.replicate n f, [])) ∧
    (lookupFut ps.futures (MsgKey.pair oid tid) = none →
       ∀ n, load_before_repeat ps oid tid (n + 1) =
         ((Protocol.load_before ps oid tid).1, List.replicate (n + 1) ps.nextFut,
          [Event.writeFrame (MsgKey.pair oid tid) false ("loadBefore")
             [PyVal.num oid, PyVal.num tid]])) := by
  constructor
  · intro f h
    exact ⟨load_before_inflight ps oid tid f h, load_before_repeat_inflight ps oid tid f h⟩
  · intro h n
    have hfresh : Protocol.load_before ps oid tid =
        ({ ps with nextFut := ps.nextFut + 1,
                   futures := ps.futures ++ [(MsgKey.pair oid tid, ps.nextFut)] },
         ps.nextFut,
         [Event.writeFrame (MsgKey.pair oid tid) false ("loadBefore")
            [PyVal.num oid, PyVal.num tid]]) := by
      simp [Protocol.load_before, h]
    have hlook : lookupFut (Protocol.load_before ps oid tid).1.futures
        (MsgKey.pair oid tid) = some ps.nextFut := by
      rw [hfresh]
      exact lookupFut_append_self ps.futures (MsgKey.pair oid tid) ps.nextFut h
    have := load_before_repeat_inflight (Protocol.load_before ps oid tid).1 oid tid
      ps.nextFut hlook n
    simp [load_before_repeat, hfresh] at this ⊢
    simp [this, List.replicate_succ]

/-- Witness for C3 from an empty pending table. -/
theorem C3_load_before_witness :
    load_before_repeat sampleProto 7 9 3 =
      ((Protocol.load_before sampleProto 7 9).1, List.replicate 3 0,
       [Event.writeFrame (MsgKey.pair 7 9) false ("loadBefore")
          [PyVal.num 7, PyVal.num 9]]) :=
  (C3_load_before_coalesces sampleProto 7 9).2 rfl 2

/-- C9: a Runner call that times out while the Client is not Ready raises
ClientDisconnected timed out waiting for connection; a timeout while Ready
propagates the timeout error itself; after ClientRunner.close every call
immediately raises ClientDisconnected closed without reaching the I/O
thread. -/
theorem C9_runner_timeout_and_close (rs : RunnerState) (ready : Option Bool) (res : WaitRes) :
    (ready ≠ some true →
       ClientRunner.wait_for_result ready WaitRes.timedOut =
         Except.error (ExcVal.clientDisconnected ("timed out waiting for connection"))) ∧
    (ready = some true →
       ClientRunner.wait_for_result ready WaitRes.timedOut =
         Except.error ExcVal.timeoutError) ∧
    (ClientRunner.call (ClientRunner.close rs).1 ready res =
       (Except.error (ExcVal.clientDisconnected ("closed")), [])) := by
  refine ⟨fun h => ?_, fun h => ?_, ?_⟩ <;>
    simp [ClientRunner.wait_for_result, ClientRunner.call, ClientRunner.close, *]

/-- Witness for C9 at concrete inputs. -/
theorem C9_runner_witness :
    ClientRunner.wait_for_result (some false) WaitRes.timedOut =
      Except.error (ExcVal.clientDisconnected ("timed out waiting for connection")) :=
  (C9_runner_timeout_and_close { callClosed := false } (some false) WaitRes.timedOut).1
    (by simp)

/-- C5: finish_connect sets the negotiated version to the byte-wise minimum of
the server tag and the client maximum, which is the last element of the
supported list; when the result is not in the supported list the Protocol
reports ProtocolError through register_failed and issues no write, otherwise
it echoes the chosen version and issues the register call. -/
theorem C5_version_negotiation (ps : ProtocolState) (server : Bytes) :
    (Protocol.finish_connect ps server).1.protocol_version = some (bytesMin server z5) ∧
    Protocol.protocols.getLast? = some z5 ∧
    (bytesMin server z5 ∉ Protocol.protocols →
       (Protocol.finish_connect ps server).2 =
         [Event.registerFailedCall (RFArg.proto (protRecOf ps))
            (ExcVal.protocolError server)]) ∧
    (bytesMin server z5 ∈ Protocol.protocols →
       ∃ args, (Protocol.finish_connect ps server).2 =
         [Event.writeBytes (bytesMin server z5),
          Event.writeFrame (MsgKey.num (ps.message_id + 1)) false ("register") args]) := by
  refine ⟨?_, ?_, ?_, ?_⟩
  · by_cases hm : bytesMin server z5 ∈ Protocol.protocols <;>
      simp [Protocol.finish_connect, Protocol.fut, Protocol.call, hm]
  · rfl
  · intro hm
    simp [Protocol.finish_connect, hm, protRecOf]
  · intro hm
    refine ⟨[PyVal.str ps.storage_key,
             PyVal.bool (match ps.read_only with
                         | ReadOnlyPref.ro => true
                         | ReadOnlyPref.rw => false
                         | ReadOnlyPref.fallback => false)], ?_⟩
    simp [Protocol.finish_connect, Protocol.fut, Protocol.call, hm]

/-- Witness for C5: a server advertising a newer tag than Z5 is clamped to Z5
and registration proceeds. -/
theorem C5_version_witness :
    ∃ args, (Protocol.finish_connect sampleProto [90, 54]).2 =
      [Event.writeBytes (bytesMin [90, 54] z5),
       Event.writeFrame (MsgKey.num 1) false ("register") args] :=
  (C5_version_negotiation sampleProto [90, 54]).2.2.2 (by decide)

/-- C6: under the Fallback read-only preference, when a writable Protocol
registers while the current Protocol is read-only, Client.registered performs
the upgrade: readiness is cleared, a fresh unresolved readiness future
replaces the old one, the old current Protocol is closed, the writable
Protocol becomes current, every other open candidate is closed, and
verification runs on the new Protocol. -/
theorem C6_fallback_upgrade (st : ClientState) (p q : ProtRec) (stid : Option Tid)
    (hpref : st.readOnly = ReadOnlyPref.fallback)
    (hcur : st.protocol = some q)
    (hq : q.readOnly = ReadOnlyPref.ro)
    (hp : p.readOnly = ReadOnlyPref.rw)
    (hqo : q.closed = false) :
    (Client.registered st p stid).1.ready = some false ∧
    (Client.registered st p stid).1.connectedGen = st.connectedGen + 1 ∧
    (Client.registered st p stid).1.connectedResolved = false ∧
    Event.protocolClose q.pid ∈ (Client.registered st p stid).2 ∧
    (Client.registered st p stid).1.protocol = some p ∧
    (Client.registered st p stid).1.protocols = [] ∧
    (∀ r ∈ st.protocols, r.closed = false → r.pid ≠ p.pid →
       Event.protocolClose r.pid ∈ (Client.registered st p stid).2) ∧
    (∃ pre, (Client.registered st p stid).2 = pre ++ [Event.verifyCall stid]) := by
  have hne : st.protocol ≠ none := by simp [hcur]
  refine ⟨?_, ?_, ?_, ?_, ?_, ?_, ?_, ?_⟩
  · simp [Client.registered, Client.upgrade, Client.clear_protocols, hne, hcur, hpref,
      hq, hp, hqo, ReadOnlyPref.truthy]
  · simp [Client.registered, Client.upgrade, Client.clear_protocols, hne, hcur, hpref,
      hq, hp, hqo, ReadOnlyPref.truthy]
  · simp [Client.registered, Client.upgrade, Client.clear_protocols, hne, hcur, hpref,
      hq, hp, hqo, ReadOnlyPref.truthy]
  · simp [Client.registered, Client.upgrade, Client.clear_protocols, hne, hcur, hpref,
      hq, hp, hqo, ReadOnlyPref.truthy]
  · simp [Client.registered, Client.upgrade, Client.clear_protocols, hne, hcur, hpref,
      hq, hp, hqo, ReadOnlyPref.truthy]
  · simp [Client.registered, Client.upgrade, Client.clear_protocols, hne, hcur, hpref,
      hq, hp, hqo, ReadOnlyPref.truthy]
  · intro r hr hrc hrp
    simp [Client.registered, Client.upgrade, Client.clear_protocols, hne, hcur, hpref,
      hq, hp, hqo, ReadOnlyPref.truthy]
    exact Or.inr ⟨r, ⟨hr, hrp, hrc⟩, rfl⟩
  · refine ⟨(Client.upgrade st p).2, ?_⟩
    simp [Client.registered, hne, hcur, hpref, hq, hp, ReadOnlyPref.truthy]

/-- A concrete pre-upgrade state: read-only current protocol 1, open
candidates 2 and 3. -/
def sampleFallback : ClientState :=
  { addrs := [10], readOnly := ReadOnlyPref.fallback, ready := some true,
    protocol := some { pid := 1, readOnly := ReadOnlyPref.ro, closed := false },
    protocols := [{ pid := 2, readOnly := ReadOnlyPref.fallback, closed := false },
                  { pid := 3, readOnly := ReadOnlyPref.fallback, closed := false }],
    cache := { nonempty := false, lastTid := none }, closed := false,
    connectedGen := 4, connectedResolved := true, verify_result := none }

/-- Witness for C6 at the concrete pre-upgrade state. -/
theorem C6_fallback_upgrade_witness :
    (Client.registered sampleFallback
        { pid := 2, readOnly := ReadOnlyPref.rw, closed := false } (some 9)).1.ready =
      some false ∧
    Event.protocolClose 1 ∈
      (Client.registered sampleFallback
        { pid := 2, readOnly := ReadOnlyPref.rw, closed := false } (some 9)).2 := by
  have h := C6_fallback_upgrade sampleFallback
    { pid := 2, readOnly := ReadOnlyPref.rw, closed := false }
    { pid := 1, readOnly := ReadOnlyPref.ro, closed := false }
    (some 9) rfl rfl rfl rfl rfl
  exact ⟨h.1, h.2.2.2.1⟩

/-- C7: for a decoded reply frame the pending entry for msgid is removed
before the completion is resolved; a reply whose args is a tuple whose first
element is an exception class fails the completion with the second element,
logging at error level unless the class is a key-not-found or conflict kind;
any other args resolves the completion successfully with args. -/
theorem C7_reply_dispatch (ps : ProtocolState) (msgid : MsgKey) (a : Bool) (args : PyVal)
    (future : Nat) (h : lookupFut ps.futures msgid = some future)
    (hnd : (ps.futures.map Prod.fst).Nodup) :
    (Protocol.message_received ps msgid a (".reply") args).1.futures =
        eraseFut ps.futures msgid ∧
    lookupFut (Protocol.message_received ps msgid a (".reply") args).1.futures msgid =
        none ∧
    (∀ c payload, excOfReply args = some (c, payload) →
       (c.isPOSKeyError || c.isConflictError) = false →
       (Protocol.message_received ps msgid a (".reply") args).2 =
         [Event.futPop msgid, Event.logError,
          Event.futSetException future (ExcVal.wire payload)]) ∧
    (∀ c payload, excOfReply args = some (c, payload) →
       (c.isPOSKeyError || c.isConflictError) = true →
       (Protocol.message_received ps msgid a (".reply") args).2 =
         [Event.futPop msgid, Event.futSetException future (ExcVal.wire payload)]) ∧
    (excOfReply args = none →
       (Protocol.message_received ps msgid a (".reply") args).2 =
         [Event.futPop msgid, Event.futSetResult future args]) := by
  refine ⟨?_, ?_, ?_, ?_, ?_⟩
  · cases hx : excOfReply args <;> simp [Protocol.message_received, h, hx]
  · cases hx : excOfReply args <;>
      simp [Protocol.message_received, h, hx, lookupFut_eraseFut_self ps.futures msgid hnd]
  · intro c payload hx hk
    simp [Protocol.message_received, h, hx, hk]
  · intro c payload hx hk
    simp [Protocol.message_received, h, hx, hk]
  · intro hx
    simp [Protocol.message_received, h, hx]

/-- A Protocol with two pending requests, for the C7 and C8 witnesses. -/
def samplePending : ProtocolState :=
  { pid := 1, storage_key := "1", read_only := ReadOnlyPref.rw, closed := false,
    transportOpen := true, heartbeatActive := true,
    futures := [(MsgKey.num 1, 0), (MsgKey.num 2, 1)], nextFut := 2,
    message_id := 2, protocol_version := some z5 }

/-- Witness for C7: a successful reply to message 2 removes the entry and
resolves future 1 with the payload. -/
theorem C7_reply_witness :
    (Protocol.message_received samplePending (MsgKey.num 2) false (".reply")
        (PyVal.num 42)).2 =
      [Event.futPop (MsgKey.num 2), Event.futSetResult 1 (PyVal.num 42)] :=
  (C7_reply_dispatch samplePending (MsgKey.num 2) false (PyVal.num 42) 1
      rfl (by decide)).2.2.2.2 rfl

/-- C8: connection_lost first cancels the heartbeat timer; on a deliberately
closed Protocol it cancels all pending completions, and a deliberate close
followed by connection loss never resolves a pending completion with a
success value; on an open Protocol it fails every pending completion with
ClientDisconnected carrying the loss reason, marks the Protocol closed and
notifies the Client via disconnected. -/
theorem C8_connection_lost_spec (ps : ProtocolState) (exc : Option String) :
    (Protocol.connection_lost ps exc).2.head? = some Event.heartbeatCancel ∧
    (ps.closed = true →
       (Protocol.connection_lost ps exc).2 =
         Event.heartbeatCancel :: ps.futures.map (fun kv => Event.futCancel kv.2)) ∧
    (ps.closed = false →
       (Protocol.connection_lost ps exc).1.closed = true ∧
       (Protocol.connection_lost ps exc).2 =
         Event.heartbeatCancel ::
           ps.futures.map (fun kv =>
             Event.futSetException kv.2
               (ExcVal.clientDisconnected (exc.getD ("connection lost")))) ++
           [Event.disconnectedCall ps.pid]) ∧
    (∀ e ∈ (Protocol.close ps).2 ++
        (Protocol.connection_lost (Protocol.close ps).1 exc).2,
       ∀ fid v, e ≠ Event.futSetResult fid v) := by
  refine ⟨?_, ?_, ?_, ?_⟩
  · by_cases hc : ps.closed <;> simp [Protocol.connection_lost, hc]
  · intro hc
    simp [Protocol.connection_lost, hc]
  · intro hc
    simp [Protocol.connection_lost, hc]
  · intro e he fid v heq
    subst heq
    by_cases hc : ps.closed <;> by_cases ht : ps.transportOpen <;>
      simp [Protocol.close, Protocol.connection_lost, hc, ht] at he

/-- Witness for C8: connection loss on the open sample Protocol fails both
pending completions and notifies the Client. -/
theorem C8_connection_lost_witness :
    (Protocol.connection_lost samplePending (some ("peer reset"))).1.closed = true :=
  (((C8_connection_lost_spec samplePending (some ("peer reset"))).2.2.1) rfl).1

/-- Membership in a conditional list splits on the condition. -/
theorem mem_ite_list {α : Type} {c : Prop} [Decidable c] {l m : List α} {a : α} :
    a ∈ (if c then l else m) ↔ (c ∧ a ∈ l) ∨ (¬c ∧ a ∈ m) := by
  by_cases h : c <;> simp [h]

/-- C1: the Client.verify case analysis after adoption of a Protocol.  With
server_tid given by registration: an empty cache does no cache mutation and
labels the outcome empty cache; a non-empty cache without a last tid is
cleared and invalidateCache is forwarded; cache_tid greater than server_tid
aborts with the assertion error, drops the protocol and fails registration
without setting the last tid or readiness; cache_tid equal to server_tid does
no cache mutation; cache_tid below server_tid with per-object invalidations
invalidates each returned oid and forwards invalidateTransaction before
setting the last tid; cache_tid below server_tid with an empty reply emits
StaleCache, clears the cache and forwards invalidateCache; and in every
non-fatal case cache.setLastTid records the final server tid and the Client
becomes Ready. -/
theorem C1_verify_cases (st : ClientState) (p : ProtRec) (stid : Tid) (r : VerifyReplies)
    (hp : st.protocol = some p) :
    (st.cache.nonempty = false →
       (Client.verify st (some stid) r).1.verify_result = some ("empty cache") ∧
       (∀ e ∈ (Client.verify st (some stid) r).2,
          e ≠ Event.cacheClear ∧ (∀ o t, e ≠ Event.cacheInvalidate o t) ∧
          (∀ o a b d, e ≠ Event.cacheStore o a b d)) ∧
       (Client.verify st (some stid) r).1.cache.lastTid = some stid ∧
       (Client.verify st (some stid) r).1.ready = some true) ∧
    (st.cache.nonempty = true → st.cache.lastTid = none →
       (Client.verify st (some stid) r).1.verify_result =
           some ("Non-empty cache w/o tid") ∧
       Event.cacheClear ∈ (Client.verify st (some stid) r).2 ∧
       Event.invalidateCacheCall ∈ (Client.verify st (some stid) r).2 ∧
       (Client.verify st (some stid) r).1.cache.lastTid = some stid ∧
       (Client.verify st (some stid) r).1.ready = some true) ∧
    (∀ ct, st.cache.nonempty = true → st.cache.lastTid = some ct → stid < ct →
       (Client.verify st (some stid) r).1.verify_result =
           some ("Cache newer than server") ∧
       (Client.verify st (some stid) r).1.ready = st.ready ∧
       (Client.verify st (some stid) r).1.protocol = none ∧
       (p.closed = false →
          Event.protocolClose p.pid ∈ (Client.verify st (some stid) r).2) ∧
       (∀ t, Event.cacheSetLastTid t ∉ (Client.verify st (some stid) r).2) ∧
       Event.connectedSetResult ∉ (Client.verify st (some stid) r).2) ∧
    (∀ ct, st.cache.nonempty = true → st.cache.lastTid = some ct → ct = stid →
       (Client.verify st (some stid) r).1.verify_result = some ("Cache up to date") ∧
       (∀ e ∈ (Client.verify st (some stid) r).2,
          e ≠ Event.cacheClear ∧ (∀ o t, e ≠ Event.cacheInvalidate o t) ∧
          (∀ o a b d, e ≠ Event.cacheStore o a b d)) ∧
       (Client.verify st (some stid) r).1.cache.lastTid = some stid ∧
       (Client.verify st (some stid) r).1.ready = some true) ∧
    (∀ ct ntid oids, st.cache.nonempty = true → st.cache.lastTid = some ct →
       ct < stid → r.invalidations = some (ntid, oids) →
       (Client.verify st (some stid) r).1.verify_result =
           some ("quick verification") ∧
       (∃ tail, (Client.verify st (some stid) r).2 =
          Event.rpcCall ("getInvalidations") [PyVal.num ct] ::
            oids.map (fun oid => Event.cacheInvalidate oid none) ++
            [Event.invalidateTransactionCall ntid oids, Event.cacheSetLastTid ntid] ++
            tail) ∧
       (Client.verify st (some stid) r).1.cache.lastTid = some ntid ∧
       (Client.verify st (some stid) r).1.ready = some true) ∧
    (∀ ct, st.cache.nonempty = true → st.cache.lastTid = some ct →
       ct < stid → r.invalidations = none →
       (Client.verify st (some stid) r).1.verify_result =
           some ("cache too old, clearing") ∧
       (∃ tail, (Client.verify st (some stid) r).2 =
          [Event.rpcCall ("getInvalidations") [PyVal.num ct], Event.staleCacheEvent,
           Event.logCritical, Event.cacheClear, Event.invalidateCacheCall,
           Event.cacheSetLastTid stid] ++ tail) ∧
       (Client.verify st (some stid) r).1.cache.lastTid = some stid ∧
       (Client.verify st (some stid) r).1.ready = some true) := by
  refine ⟨?_, ?_, ?_, ?_, ?_, ?_⟩
  · intro hne
    rcases hri : r.info with exc | info <;>
      refine ⟨by simp [Client.verify, Client.verifyCore, hp, hne, hri,
          Client.register_failed], ?_,
        by simp [Client.verify, Client.verifyCore, hp, hne, hri, Client.register_failed],
        by simp [Client.verify, Client.verifyCore, hp, hne, hri,
          Client.register_failed]⟩ <;>
      · intro e he
        simp [Client.verify, Client.verifyCore, hp, hne, hri, Client.register_failed,
          mem_ite_list] at he
        rcases he with rfl | rfl | rfl | rfl <;> simp
  · intro hne hct
    rcases hri : r.info with exc | info <;>
      simp [Client.verify, Client.verifyCore, hp, hne, hct, hri, Client.register_failed,
        mem_ite_list]
  · intro ct hne hct hlt
    refine ⟨?_, ?_, ?_, ?_, ?_, ?_⟩ <;>
      simp [Client.verify, Client.verifyCore, hp, hne, hct, hlt, Client.register_failed,
        mem_ite_list]
  · intro ct hne hct heq
    subst heq
    have hnlt : ¬ ct < ct := Nat.lt_irrefl ct
    rcases hri : r.info with exc | info <;>
      refine ⟨by simp [Client.verify, Client.verifyCore, hp, hne, hct, hnlt, hri,
          Client.register_failed], ?_,
        by simp [Client.verify, Client.verifyCore, hp, hne, hct, hnlt, hri,
          Client.register_failed],
        by simp [Client.verify, Client.verifyCore, hp, hne, hct, hnlt, hri,
          Client.register_failed]⟩ <;>
      · intro e he
        simp [Client.verify, Client.verifyCore, hp, hne, hct, hnlt, hri,
          Client.register_failed, mem_ite_list] at he
        rcases he with rfl | rfl | rfl | rfl <;> simp
  · intro ct ntid oids hne hct hlt hv
    have hnlt : ¬ stid < ct := Nat.lt_asymm hlt
    have hneq : ¬ ct = stid := Nat.ne_of_lt hlt
    rcases hri : r.info with exc | info
    · refine ⟨?_, ?_, ?_, ?_⟩
      · simp [Client.verify, Client.verifyCore, hp, hne, hct, hnlt, hneq, hv, hri,
          Client.register_failed]
      · refine ⟨[Event.rpcCall ("get_info") [],
          Event.registerFailedCall RFArg.selfClient exc, Event.logError], ?_⟩
        simp [Client.verify, Client.verifyCore, hp, hne, hct, hnlt, hneq, hv, hri,
          Client.register_failed]
      · simp [Client.verify, Client.verifyCore, hp, hne, hct, hnlt, hneq, hv, hri,
          Client.register_failed]
      · simp [Client.verify, Client.verifyCore, hp, hne, hct, hnlt, hneq, hv, hri,
          Client.register_failed]
    · refine ⟨?_, ?_, ?_, ?_⟩
      · simp [Client.verify, Client.verifyCore, hp, hne, hct, hnlt, hneq, hv, hri]
      · refine ⟨[Event.rpcCall ("get_info") [], Event.notifyConnected info,
          Event.connectedSetResult], ?_⟩
        simp [Client.verify, Client.verifyCore, hp, hne, hct, hnlt, hneq, hv, hri]
      · simp [Client.verify, Client.verifyCore, hp, hne, hct, hnlt, hneq, hv, hri]
      · simp [Client.verify, Client.verifyCore, hp, hne, hct, hnlt, hneq, hv, hri]
  · intro ct hne hct hlt hv
    have hnlt : ¬ stid < ct := Nat.lt_asymm hlt
    have hneq : ¬ ct = stid := Nat.ne_of_lt hlt
    rcases hri : r.info with exc | info
    · refine ⟨?_, ?_, ?_, ?_⟩
      · simp [Client.verify, Client.verifyCore, hp, hne, hct, hnlt, hneq, hv, hri,
          Client.register_failed]
      · refine ⟨[Event.rpcCall ("get_info") [],
          Event.registerFailedCall RFArg.selfClient exc, Event.logError], ?_⟩
        simp [Client.verify, Client.verifyCore, hp, hne, hct, hnlt, hneq, hv, hri,
          Client.register_failed]
      · simp [Client.verify, Client.verifyCore, hp, hne, hct, hnlt, hneq, hv, hri,
          Client.register_failed]
      · simp [Client.verify, Client.verifyCore, hp, hne, hct, hnlt, hneq, hv, hri,
          Client.register_failed]
    · refine ⟨?_, ?_, ?_, ?_⟩
      · simp [Client.verify, Client.verifyCore, hp, hne, hct, hnlt, hneq, hv, hri]
      · refine ⟨[Event.rpcCall ("get_info") [], Event.notifyConnected info,
          Event.connectedSetResult], ?_⟩
        simp [Client.verify, Client.verifyCore, hp, hne, hct, hnlt, hneq, hv, hri]
      · simp [Client.verify, Client.verifyCore, hp, hne, hct, hnlt, hneq, hv, hri]
      · simp [Client.verify, Client.verifyCore, hp, hne, hct, hnlt, hneq, hv, hri]

/-- Witness for C1 in the quick-verification case at a concrete state. -/
theorem C1_verify_witness :
    (Client.verify sampleReady (some 10)
        { lastTransaction := 0, invalidations := some (10, [3, 4]),
          info := Except.ok 0 }).1.verify_result = some ("quick verification") :=
  ((C1_verify_cases sampleReady { pid := 1, readOnly := ReadOnlyPref.rw, closed := false }
      10 { lastTransaction := 0, invalidations := some (10, [3, 4]), info := Except.ok 0 }
      rfl).2.2.2.2.1 5 10 [3, 4] rfl rfl (by decide) rfl).1

/-- C4: while Ready, a successful tpc_finish round trip invalidates every oid
in updates, stores the new revision for every update whose data is present
and not resolved, then sets cache.last_tid to the server tid, invokes the
on-commit callback and resolves the completion with the server tid, in that
order; a failed round trip resolves the completion with the error and then
closes and disconnects the current Protocol, dropping readiness. -/
theorem C4_tpc_finish_spec (st : ClientState) (fid : Nat) (tid : Tid)
    (updates : List (Oid × Option Data × Bool)) (q : ProtRec)
    (hready : st.ready = some true) (hq : st.protocol = some q)
    (hqo : q.closed = false) :
    (∀ tid1 : Tid,
       (Client.tpc_finish_threadsafe st fid tid updates
           (Except.ok tid1)).1.cache.lastTid = some tid1 ∧
       (∀ u ∈ updates, Event.cacheInvalidate u.1 (some tid1) ∈
           (Client.tpc_finish_threadsafe st fid tid updates (Except.ok tid1)).2) ∧
       (∀ u ∈ updates, ∀ d, u.2.1 = some d → u.2.2 = false →
           Event.cacheStore u.1 tid1 none d ∈
             (Client.tpc_finish_threadsafe st fid tid updates (Except.ok tid1)).2) ∧
       (∃ pre, (Client.tpc_finish_threadsafe st fid tid updates (Except.ok tid1)).2 =
           Event.rpcCall ("tpc_finish") [PyVal.num tid] :: pre ++
             [Event.cacheSetLastTid tid1, Event.onCommit tid1,
              Event.futSetResult fid (PyVal.num tid1)])) ∧
    (∀ exc : ExcVal,
       (∃ tail, (Client.tpc_finish_threadsafe st fid tid updates
           (Except.error exc)).2 =
         Event.rpcCall ("tpc_finish") [PyVal.num tid] ::
           Event.futSetException fid exc :: Event.protocolClose q.pid :: tail) ∧
       Event.notifyDisconnected ∈
           (Client.tpc_finish_threadsafe st fid tid updates (Except.error exc)).2 ∧
       Event.tryConnecting ∈
           (Client.tpc_finish_threadsafe st fid tid updates (Except.error exc)).2 ∧
       (Client.tpc_finish_threadsafe st fid tid updates
           (Except.error exc)).1.ready = some false ∧
       (Client.tpc_finish_threadsafe st fid tid updates
           (Except.error exc)).1.protocol = none) := by
  constructor
  · intro tid1
    refine ⟨?_, ?_, ?_, ?_⟩
    · simp [Client.tpc_finish_threadsafe, hready]
    · intro u hu
      obtain ⟨o, dt, rs⟩ := u
      simp [Client.tpc_finish_threadsafe, hready, List.mem_flatMap]
      cases rs
      · exact ⟨o, dt, Or.inl ⟨hu, Or.inl rfl⟩⟩
      · exact ⟨o, dt, Or.inr ⟨hu, Or.inl rfl⟩⟩
    · intro u hu d hd hres
      obtain ⟨o, dt, rs⟩ := u
      simp only at hd hres
      subst hd
      subst hres
      simp [Client.tpc_finish_threadsafe, hready, List.mem_flatMap]
      exact ⟨o, some d, Or.inl ⟨hu, List.mem_singleton.mpr rfl⟩⟩
    · refine ⟨updates.flatMap (fun u =>
        Event.cacheInvalidate u.1 (some tid1) ::
          (match u.2.1 with
           | some d => if u.2.2 then [] else [Event.cacheStore u.1 tid1 none d]
           | none => [])), ?_⟩
      simp [Client.tpc_finish_threadsafe, hready]
  · intro exc
    refine ⟨?_, ?_, ?_, ?_, ?_⟩
    · refine ⟨(Client.disconnected
        { st with protocols := st.protocols.map (fun x =>
            if some x.pid = st.protocol.map ProtRec.pid then { x with closed := true }
            else x) } (st.protocol.map ProtRec.pid)).2, ?_⟩
      simp [Client.tpc_finish_threadsafe, hready, hq, hqo]
    · simp [Client.tpc_finish_threadsafe, Client.disconnected, Client.clear_protocols,
        Client.try_connecting, hready, hq, hqo, mem_ite_list]
    · by_cases hcl : st.closed <;>
        simp [Client.tpc_finish_threadsafe, Client.disconnected, Client.clear_protocols,
          Client.try_connecting, hready, hq, hqo, hcl, mem_ite_list]
    · by_cases hcl : st.closed <;>
        simp [Client.tpc_finish_threadsafe, Client.disconnected, Client.clear_protocols,
          Client.try_connecting, hready, hq, hqo, hcl]
    · by_cases hcl : st.closed <;>
        simp [Client.tpc_finish_threadsafe, Client.disconnected, Client.clear_protocols,
          Client.try_connecting, hready, hq, hqo, hcl]

/-- Witness for C4: a successful commit at tid 9 updates the cache last tid. -/
theorem C4_tpc_finish_witness :
    (Client.tpc_finish_threadsafe sampleReady 0 8 [(3, some 77, false)]
        (Except.ok 9)).1.cache.lastTid = some 9 :=
  ((C4_tpc_finish_spec sampleReady 0 8 [(3, some 77, false)]
      { pid := 1, readOnly := ReadOnlyPref.rw, closed := false }
      rfl rfl rfl).1 9).1

/-- C10: when get_info fails after successful (non-fatal) cache verification,
verify calls register_failed with the Client itself as the argument, which
closes no Protocol and schedules no reconnect because self.protocol is still
set; the Client stays ready with the cache last tid recorded, notify_connected
is never invoked and the readiness future stays unresolved. -/
theorem C10_get_info_failure (st : ClientState) (p : ProtRec) (stid : Tid) (exc : ExcVal)
    (r : VerifyReplies)
    (hp : st.protocol = some p)
    (hcr : st.connectedResolved = false)
    (hinfo : r.info = Except.error exc)
    (hnf : ∀ ct, st.cache.nonempty = true → st.cache.lastTid = some ct → ¬ stid < ct) :
    (Client.verify st (some stid) r).1.ready = some true ∧
    (Client.verify st (some stid) r).1.protocol = some p ∧
    (∃ ft, (Client.verify st (some stid) r).1.cache.lastTid = some ft) ∧
    (Client.verify st (some stid) r).1.connectedResolved = false ∧
    Event.registerFailedCall RFArg.selfClient exc ∈ (Client.verify st (some stid) r).2 ∧
    (∀ pid, Event.protocolClose pid ∉ (Client.verify st (some stid) r).2) ∧
    Event.scheduleRetry ∉ (Client.verify st (some stid) r).2 ∧
    (∀ info, Event.notifyConnected info ∉ (Client.verify st (some stid) r).2) ∧
    Event.connectedSetResult ∉ (Client.verify st (some stid) r).2 := by
  cases hne : st.cache.nonempty with
  | false =>
      simp [Client.verify, Client.verifyCore, Client.register_failed, hp, hcr, hinfo,
        hne, mem_ite_list]
  | true =>
      cases hct : st.cache.lastTid with
      | none =>
          simp [Client.verify, Client.verifyCore, Client.register_failed, hp, hcr,
            hinfo, hne, hct, mem_ite_list]
      | some ct =>
          have hnlt : ¬ stid < ct := hnf ct hne hct
          by_cases heq : ct = stid
          · simp [Client.verify, Client.verifyCore, Client.register_failed, hp, hcr,
              hinfo, hne, hct, hnlt, heq, mem_ite_list]
          · cases hv : r.invalidations with
            | none =>
                simp [Client.verify, Client.verifyCore, Client.register_failed, hp,
                  hcr, hinfo, hne, hct, hnlt, heq, hv, mem_ite_list]
            | some vd =>
                simp [Client.verify, Client.verifyCore, Client.register_failed, hp,
                  hcr, hinfo, hne, hct, hnlt, heq, hv, mem_ite_list]

/-- Witness for C10: get_info failing after an up-to-date verification leaves
the sample client ready with no reconnect scheduled. -/
theorem C10_get_info_failure_witness :
    (Client.verify sampleReady (some 5)
        { lastTransaction := 0, invalidations := none,
          info := Except.error ExcVal.assertionError }).1.ready = some true :=
  (C10_get_info_failure sampleReady
      { pid := 1, readOnly := ReadOnlyPref.rw, closed := false } 5
      ExcVal.assertionError
      { lastTransaction := 0, invalidations := none,
        info := Except.error ExcVal.assertionError }
      rfl rfl rfl
      (by intro ct h1 h2; simp [sampleReady] at h2; subst h2; decide)).1

end ZEOClient
